import Mathlib

/-!
Verification development for the GA4GH WES service core: the run state
machine, the callback handler (services/callback_service.py), the monitor
daemon (daemon/workflow_monitor.py) and the executors
(daemon/executors/local.py, daemon/executors/omics.py), shallowly embedded
as pure Lean functions.  Timestamps are modelled as natural numbers handed
to each operation by its caller, JSON objects as association lists with
opaque string values, and database commit/rollback as the functional
result of each operation (an operation that raises an HTTP error before
its commit leaves the stored run unchanged).
-/

namespace WesService

/-- Workflow execution state enum, from db/models.py (class WorkflowState). -/
inductive WorkflowState where
  | UNKNOWN
  | QUEUED
  | INITIALIZING
  | RUNNING
  | PAUSED
  | COMPLETE
  | EXECUTOR_ERROR
  | SYSTEM_ERROR
  | CANCELED
  | CANCELING
  | PREEMPTED
deriving DecidableEq, Repr, Fintype

/-- String value of each enum member, as in models.py. -/
def WorkflowState.value : WorkflowState → String
  | .UNKNOWN => "UNKNOWN"
  | .QUEUED => "QUEUED"
  | .INITIALIZING => "INITIALIZING"
  | .RUNNING => "RUNNING"
  | .PAUSED => "PAUSED"
  | .COMPLETE => "COMPLETE"
  | .EXECUTOR_ERROR => "EXECUTOR_ERROR"
  | .SYSTEM_ERROR => "SYSTEM_ERROR"
  | .CANCELED => "CANCELED"
  | .CANCELING => "CANCELING"
  | .PREEMPTED => "PREEMPTED"

/-- JSON object, modelled as an association list from keys to opaque
serialized values.  Used for the outputs column and for payload fields. -/
abbrev OutMap := List (String × String)

/-- Dictionary assignment m[k] = v: overwrite the existing key or append. -/
def omapSet (m : OutMap) (k v : String) : OutMap :=
  if m.any (fun kv => kv.1 == k) then
    m.map (fun kv => if kv.1 == k then (k, v) else kv)
  else
    m ++ [(k, v)]

/-- Dictionary membership and lookup. -/
def omapGet (m : OutMap) (k : String) : Option String :=
  (m.find? (fun kv => kv.1 == k)).map (fun kv => kv.2)

/-- Python del m[k]. -/
def omapErase (m : OutMap) (k : String) : OutMap :=
  m.filter (fun kv => kv.1 != k)

/-- Python dict.update: entries of the argument overwrite those of m. -/
def omapUpdate (m add : OutMap) : OutMap :=
  add.foldl (fun acc kv => omapSet acc kv.1 kv.2) m

/-- WorkflowRun database row, from db/models.py.  Only the columns the
verified operations read or write are carried; provenance bookkeeping
columns (tags, engine hints, user_id, created_at, updated_at) are not
touched by any verified operation and are omitted.  The model declares no
last_event_id or last_callback_time column (none exists in models.py nor
in any migration under alembic/versions or migrations/versions). -/
structure WorkflowRun where
  id : String
  state : WorkflowState
  workflow_type : String
  workflow_url : String
  start_time : Option Nat
  end_time : Option Nat
  stdout_url : Option String
  exit_code : Option Int
  system_logs : List String
  outputs : Option OutMap
deriving DecidableEq, Repr

/-- Row defaults on creation, from models.py: state defaults to QUEUED,
timestamps, exit code and outputs are null, system_logs defaults to []. -/
def newRun (rid wtype wurl : String) : WorkflowRun :=
  { id := rid
    state := .QUEUED
    workflow_type := wtype
    workflow_url := wurl
    start_time := none
    end_time := none
    stdout_url := none
    exit_code := none
    system_logs := []
    outputs := none }

/-- run.system_logs.append(msg). -/
def appendLog (run : WorkflowRun) (msg : String) : WorkflowRun :=
  { run with system_logs := run.system_logs ++ [msg] }

/-! ## Callback service (services/callback_service.py) -/

/-- CallbackService.OMICS_STATUS_MAP: HealthOmics status to WorkflowState.
Statuses outside the dictionary map to none. -/
def OMICS_STATUS_MAP (s : String) : Option WorkflowState :=
  match s with
  | "COMPLETED" => some .COMPLETE
  | "FAILED" => some .EXECUTOR_ERROR
  | "CANCELLED" => some .CANCELED
  | "CANCELLED_RUNNING" => some .CANCELED
  | "CANCELLED_STARTING" => some .CANCELED
  | "STARTING" => some .RUNNING
  | "RUNNING" => some .RUNNING
  | "PENDING" => some .RUNNING
  | "QUEUED" => some .RUNNING
  | "STOPPING" => some .RUNNING
  | "TERMINATING" => some .RUNNING
  | _ => none

/-- CallbackService.TERMINAL_STATES. -/
def TERMINAL_STATES : List WorkflowState :=
  [.COMPLETE, .EXECUTOR_ERROR, .CANCELED, .SYSTEM_ERROR]

/-- Membership in CallbackService.TERMINAL_STATES. -/
def isTerminal (s : WorkflowState) : Bool :=
  TERMINAL_STATES.contains s

/-- The valid_transitions dictionary of CallbackService._is_valid_transition;
states that are not keys of the dictionary fall through to the empty set. -/
def valid_transitions (s : WorkflowState) : List WorkflowState :=
  match s with
  | .UNKNOWN => [.QUEUED, .INITIALIZING, .RUNNING, .SYSTEM_ERROR]
  | .QUEUED => [.INITIALIZING, .RUNNING, .CANCELED, .SYSTEM_ERROR]
  | .INITIALIZING => [.RUNNING, .CANCELED, .EXECUTOR_ERROR, .SYSTEM_ERROR]
  | .RUNNING => [.COMPLETE, .EXECUTOR_ERROR, .CANCELED, .SYSTEM_ERROR, .PAUSED]
  | .PAUSED => [.RUNNING, .CANCELED, .SYSTEM_ERROR]
  | .CANCELING => [.CANCELED, .SYSTEM_ERROR]
  | _ => []

/-- CallbackService._is_valid_transition: terminal source states are
rejected first, then the transition dictionary is consulted. -/
def is_valid_transition (from_state to_state : WorkflowState) : Bool :=
  if isTerminal from_state then false
  else (valid_transitions from_state).contains to_state

/-- OmicsStateChangeCallback payload, from schemas/callback.py.  The
dictionary valued optional fields carry opaque serialized values. -/
structure OmicsStateChangeCallback where
  omics_run_id : String
  status : String
  wes_run_id : String
  event_time : Nat
  status_message : Option String
  failure_reason : Option String
  output_mapping : Option String
  event_id : String
  log_urls : Option String
deriving DecidableEq, Repr

/-- CallbackResponse, from schemas/callback.py. -/
structure CallbackResponse where
  success : Bool
  wes_run_id : String
  previous_state : String
  new_state : String
  message : String
  already_processed : Bool
deriving DecidableEq, Repr

/-- Append a log line built from an optional payload field. -/
def appendOptLog (run : WorkflowRun) (m : Option String) (pre : String) : WorkflowRun :=
  match m with
  | some s => appendLog run (pre ++ s)
  | none => run

/-- run.outputs = run.outputs or followed by run.outputs[k] = v. -/
def setOutKey (run : WorkflowRun) (k v : String) : WorkflowRun :=
  { run with outputs := some (omapSet (run.outputs.getD []) k v) }

/-- The terminal-transition block of handle_omics_state_change: set
end_time if unset, store log urls, then exit code 0 plus output mapping on
COMPLETE and exit code 1 on every other terminal state. -/
def applyTerminal (run : WorkflowRun) (new_state : WorkflowState)
    (p : OmicsStateChangeCallback) (now : Nat) : WorkflowRun :=
  if isTerminal new_state then
    let run := if run.end_time = none then { run with end_time := some now } else run
    let run :=
      match p.log_urls with
      | some lu => setOutKey run "log_urls" lu
      | none => run
    if new_state = .COMPLETE then
      let run := { run with exit_code := some 0 }
      match p.output_mapping with
      | some om => setOutKey run "output_mapping" om
      | none => run
    else { run with exit_code := some 1 }
  else run

/-- The mutation section of handle_omics_state_change once the transition
has been validated: assign the state, append the transition log line and
the optional status and failure lines, then apply the terminal block. -/
def applyUpdate (run : WorkflowRun) (new_state : WorkflowState)
    (p : OmicsStateChangeCallback) (now : Nat) : WorkflowRun :=
  let previous_state := run.state
  let run := { run with state := new_state }
  let run := appendLog run ("State updated via callback: " ++ previous_state.value
      ++ " -> " ++ new_state.value ++ " (Omics: " ++ p.status ++ ")")
  let run := appendOptLog run p.status_message "Status: "
  let run := appendOptLog run p.failure_reason "Failure reason: "
  applyTerminal run new_state p now

/-- CallbackService.handle_omics_state_change on the run looked up by
wes_run_id.  The duplicate-event guard of the source is conditioned on
hasattr(run, last_event_id); WorkflowRun declares no such column, so that
branch never executes and the event id is never recorded, which is why no
branch of this function consults p.event_id.  An HTTP error is raised
before any field assignment, so the error results carry no mutation. -/
def handleRun (run : WorkflowRun) (p : OmicsStateChangeCallback) (now : Nat) :
    Except Nat (CallbackResponse × WorkflowRun) :=
  match OMICS_STATUS_MAP p.status with
  | none => .error 400
  | some new_state =>
    if is_valid_transition run.state new_state then
      .ok ({ success := true
             wes_run_id := run.id
             previous_state := run.state.value
             new_state := new_state.value
             message := "Successfully updated state from " ++ run.state.value
               ++ " to " ++ new_state.value
             already_processed := false }, applyUpdate run new_state p now)
    else if isTerminal run.state then
      .ok ({ success := true
             wes_run_id := run.id
             previous_state := run.state.value
             new_state := run.state.value
             message := "Run already in terminal state " ++ run.state.value
             already_processed := false }, run)
    else .error 400

/-- Entry point including the database lookup: a missing run yields 404. -/
def handle_omics_state_change (found : Option WorkflowRun)
    (p : OmicsStateChangeCallback) (now : Nat) :
    Except Nat (CallbackResponse × WorkflowRun) :=
  match found with
  | none => .error 404
  | some run => handleRun run p now

/-! ## Workflow monitor (daemon/workflow_monitor.py) -/

/-- Calls the monitor makes on its executor.  WorkflowMonitor holds an
executor exposing execute and cancel; each monitor operation below also
returns the list of executor calls it performs, so that the absence of a
call is itself a provable fact of the embedding. -/
inductive ExecCall where
  | cancelCall (runId : String)
  | executeCall (runId : String)
deriving DecidableEq, Repr

/-- WorkflowMonitor._cancel_run: set state to CANCELED, set end_time,
append the fixed log line, commit, and discard from active_runs.  The
source body contains no call on self.executor, hence the empty call list. -/
def cancel_run (run : WorkflowRun) (now : Nat) : WorkflowRun × List ExecCall :=
  (appendLog { run with state := .CANCELED, end_time := some now }
    "Workflow canceled by user", [])

/-- The first commit of WorkflowMonitor._execute_run: update the fetched
run to INITIALIZING before handing it to the executor. -/
def execute_run_init (run : WorkflowRun) : WorkflowRun :=
  { run with state := .INITIALIZING }

/-- The except branch of WorkflowMonitor._execute_run: on an exception
escaping the executor, re-read the run and record SYSTEM_ERROR with an
end_time and a log line.  No exit_code is assigned. -/
def execute_run_error (run : WorkflowRun) (msg : String) (now : Nat) : WorkflowRun :=
  appendLog { run with state := .SYSTEM_ERROR, end_time := some now }
    ("System error: " ++ msg)

/-- The dispatch loop of WorkflowMonitor._poll_and_execute over the
fetched QUEUED rows: each run id not already in active_runs is started
(one _execute_run task) and added to active_runs. -/
def dispatch_loop (fetched : List String) (active : List String) :
    List String × List String :=
  match fetched with
  | [] => ([], active)
  | rid :: rest =>
    if rid ∈ active then dispatch_loop rest active
    else
      (rid :: (dispatch_loop rest (rid :: active)).1,
       (dispatch_loop rest (rid :: active)).2)

/-- One dispatch phase of WorkflowMonitor._poll_and_execute: the QUEUED
query is limited to daemon_max_concurrent_runs - len(active_runs) rows,
then the loop above runs.  Returns (newly started run ids, active_runs
afterwards). -/
def dispatch_phase (queued : List String) (active : List String)
    (maxConcurrent : Nat) : List String × List String :=
  dispatch_loop (queued.take (maxConcurrent - active.length)) active

/-! ## Local executor (daemon/executors/local.py) -/

/-- LocalExecutor.execute.  The run is moved to RUNNING with start_time
set, three simulated TaskLog rows are written (they do not touch the run
row), and the run finishes COMPLETE with exit code 0 and stub outputs; if
an exception interrupts the simulation the except branch records
EXECUTOR_ERROR with exit code 1.  tRun and tEnd are the wall-clock values
of the two datetime.now calls that land in the run row, fail says whether
the simulation raises. -/
def localExecute (run : WorkflowRun) (tRun tEnd : Nat) (fail : Bool) : WorkflowRun :=
  let run := appendLog { run with state := .RUNNING, start_time := some tRun }
    "Started execution"
  if fail then
    appendLog { run with
      state := .EXECUTOR_ERROR
      end_time := some tEnd
      exit_code := some 1 } "Execution error"
  else
    appendLog { run with
      state := .COMPLETE
      end_time := some tEnd
      exit_code := some 0
      outputs := some [("output_file", "s3://bucket/output.txt"),
                       ("metrics", "duration and task counts")] }
      "Completed execution"

/-! ## Omics executor (daemon/executors/omics.py) -/

/-- One observation of the polling loop in _monitor_omics_run: either a
status string returned by get_run, or an exception while polling. -/
inductive OmicsPoll where
  | status (s : String)
  | exc
deriving DecidableEq, Repr

/-- External behaviour OmicsExecutor.execute depends on: whether
_extract_workflow_id succeeds, the start_run outcome (the new Omics run id
on success, none for an exception), the sequence of get_run observations
the monitor loop sees, the _get_run_outputs dictionary consumed inside the
monitor loop on COMPLETED, the outcome of the outputs-retrieval block of
execute (none models an exception inside it), the status delivered by the
double-check get_run (none models an exception), and the timestamps
recorded at RUNNING and at the terminal transition. -/
structure OmicsEnv where
  extract_ok : Bool
  start_ok : Option String
  polls : List OmicsPoll
  monitor_outputs : OutMap
  complete_outputs : Option OutMap
  aws_check : Option String
  tRun : Nat
  tEnd : Nat
deriving DecidableEq, Repr

/-- OmicsExecutor._monitor_omics_run: poll get_run until a decisive
status; COMPLETED merges the fetched outputs into run.outputs and returns
COMPLETE, FAILED returns EXECUTOR_ERROR, the cancelled family returns
CANCELED, in-flight statuses poll again, anything else returns
SYSTEM_ERROR, as does an exception while polling.  none means the polling
loop has not reached a decision within the observed prefix (the source
loops forever). -/
def monitor_omics_run (run : WorkflowRun) (polls : List OmicsPoll)
    (mOut : OutMap) : Option (WorkflowState × WorkflowRun) :=
  match polls with
  | [] => none
  | .exc :: _ => some (.SYSTEM_ERROR, appendLog run "Error monitoring Omics run")
  | .status s :: rest =>
    let run := appendLog run ("Omics status update: " ++ s)
    match s with
    | "COMPLETED" =>
      let run :=
        if mOut.isEmpty then run
        else { run with outputs := some (omapUpdate (run.outputs.getD []) mOut) }
      some (.COMPLETE, run)
    | "FAILED" =>
      some (.EXECUTOR_ERROR, appendLog run "Omics workflow failed")
    | "CANCELLED" | "CANCELLED_RUNNING" | "CANCELLED_STARTING" =>
      some (.CANCELED, run)
    | "STARTING" | "RUNNING" | "PENDING" | "QUEUED" =>
      monitor_omics_run run rest mOut
    | "STOPPING" | "TERMINATING" =>
      monitor_omics_run
        (appendLog run ("Omics workflow in transition state: " ++ s)) rest mOut
    | _ =>
      some (.SYSTEM_ERROR, appendLog run ("Unknown Omics status: " ++ s))

/-- First commit of OmicsExecutor.execute: INITIALIZING plus a log line. -/
def omicsInitPhase (run : WorkflowRun) : WorkflowRun :=
  appendLog { run with state := .INITIALIZING } "Initializing AWS Omics workflow"

/-- The two early failure branches of OmicsExecutor.execute (workflow id
extraction failure, start_run failure): log the error, then SYSTEM_ERROR
with end_time and exit code 1. -/
def omicsFail (run : WorkflowRun) (msg : String) (t : Nat) : WorkflowRun :=
  { appendLog run msg with
    state := .SYSTEM_ERROR
    end_time := some t
    exit_code := some 1 }

/-- The commits of OmicsExecutor.execute between extraction and start_run:
parameter logging, then RUNNING with start_time set. -/
def omicsStartPhase (run : WorkflowRun) (tRun : Nat) : WorkflowRun :=
  let run := appendLog run "Using Omics workflow ID"
  let run := appendLog run "Input parameters"
  let run := appendLog run "Omics parameters"
  appendLog { run with state := .RUNNING, start_time := some tRun }
    "Started execution"

/-- The COMPLETE branch of OmicsExecutor.execute after monitoring: exit
code 0, then the outputs-retrieval try block.  On success the outputs are
replaced wholesale; when they carry a logs entry, stdout_url receives the
serialized log urls and the logs key is deleted from outputs.  On an
exception in the block only a warning is logged. -/
def omicsCompletePhase (run : WorkflowRun) (co : Option OutMap) : WorkflowRun :=
  let run := { run with exit_code := some 0 }
  match co with
  | some o =>
    let run := { run with outputs := some o }
    let run :=
      match omapGet o "logs" with
      | some lv =>
        { appendLog { run with stdout_url := some lv }
            "Set stdout_url to JSON structure with all log URLs" with
          outputs := some (omapErase o "logs") }
      | none => run
    appendLog run "Workflow completed successfully"
  | none => appendLog run "Workflow completed but failed to retrieve outputs"

/-- The double-check block of OmicsExecutor.execute: when the run ended in
an error state, ask the backend once more; if it reports COMPLETED the run
is overridden to COMPLETE with exit code 0, and an exception during the
check only logs. -/
def omicsDoubleCheck (run : WorkflowRun) (aws : Option String) : WorkflowRun :=
  if run.state = .EXECUTOR_ERROR || run.state = .SYSTEM_ERROR then
    match aws with
    | some s =>
      if s = "COMPLETED" then
        { appendLog run "AWS reports workflow as COMPLETED despite error" with
          state := .COMPLETE, exit_code := some 0 }
      else run
    | none => appendLog run "Failed to double-check AWS run status"
  else run

/-- The successful start_run commit: log the start, then store the Omics
run id and the derived output location into run.outputs while the run is
RUNNING. -/
def omicsStarted (run : WorkflowRun) (oid : String) : WorkflowRun :=
  let run := appendLog run ("Started AWS Omics run: " ++ oid)
  { run with outputs := some (omapSet
      (omapSet (run.outputs.getD []) "omics_run_id" oid)
      "output_location" ("out/" ++ oid)) }

/-- The terminal transition after monitoring: assign the final state and
end_time, then either the COMPLETE bookkeeping or the failure log with
exit code 1. -/
def omicsTerminal (run2 : WorkflowRun) (finalState : WorkflowState)
    (co : Option OutMap) (tEnd : Nat) : WorkflowRun :=
  let run3 := { run2 with state := finalState, end_time := some tEnd }
  if finalState = .COMPLETE then omicsCompletePhase run3 co
  else appendLog { run3 with exit_code := some 1 }
    ("Workflow failed with state " ++ finalState.value)

/-- OmicsExecutor.execute assembled from the phases above, following the
source control flow: INITIALIZING, extraction, RUNNING, start_run (which
on success stores the Omics run id and output location into run.outputs
while the run is RUNNING), the monitoring loop, the terminal transition
with end_time, the COMPLETE or failure bookkeeping, and the double-check. -/
def omicsExecute (run : WorkflowRun) (env : OmicsEnv) : WorkflowRun :=
  let run := omicsInitPhase run
  if env.extract_ok = false then
    omicsFail run "Failed to extract workflow ID" env.tEnd
  else
    let run := omicsStartPhase run env.tRun
    match env.start_ok with
    | none => omicsFail run "Failed to start Omics workflow" env.tEnd
    | some oid =>
      let run := omicsStarted run oid
      match monitor_omics_run run env.polls env.monitor_outputs with
      | none => run
      | some (finalState, run2) =>
        omicsDoubleCheck (omicsTerminal run2 finalState env.complete_outputs env.tEnd)
          env.aws_check

/-! ## Reconcile and recovery path of the monitor
(WorkflowMonitor._check_existing_runs and _monitor_existing_run) -/

/-- Per-run body of WorkflowMonitor._check_existing_runs, which fetches
the runs in RUNNING or INITIALIZING: a run whose outputs carry an
omics_run_id is handed to _monitor_existing_run unchanged; otherwise it is
marked CANCELED with end_time and a log line (and no exit_code). -/
def check_existing_run (run : WorkflowRun) (now : Nat) : WorkflowRun :=
  if (run.outputs.getD []).any (fun kv => kv.1 == "omics_run_id") then run
  else
    appendLog { run with state := .CANCELED, end_time := some now }
      "Run marked as CANCELED: No Omics run ID found"

/-- External behaviour _monitor_existing_run depends on: whether the
initial get_run(omics_run_id) succeeds, the get_run observations of the
monitoring loop, the _get_run_outputs dictionary consumed inside the loop
on COMPLETED, the outcome of the outputs-retrieval block on COMPLETE
(none models an exception inside it), and the timestamp recorded at the
terminal transition. -/
structure ReconcileEnv where
  omics_found : Bool
  polls : List OmicsPoll
  monitor_outputs : OutMap
  complete_outputs : Option OutMap
  tEnd : Nat
deriving DecidableEq, Repr

/-- The not-found branch of _monitor_existing_run: CANCELED with
end_time, a log line and exit code 1. -/
def reconcileNotFound (run : WorkflowRun) (t : Nat) : WorkflowRun :=
  appendLog { run with
    state := .CANCELED
    end_time := some t
    exit_code := some 1 }
    "Run marked as CANCELED: Omics run not found in AWS HealthOmics"

/-- The COMPLETE branch of _monitor_existing_run after monitoring: exit
code 0, then the outputs-retrieval try block.  On success the outputs are
replaced wholesale and, when they carry a logs entry, stdout_url is set
from it (output values are opaque here, so the nested run_log lookup is
collapsed into the logs value); on an exception only a warning is logged. -/
def reconcileComplete (run3 : WorkflowRun) (co : Option OutMap) : WorkflowRun :=
  let run4 := { run3 with exit_code := some 0 }
  match co with
  | some o =>
    let run5 := { run4 with outputs := some o }
    let run5 :=
      match omapGet o "logs" with
      | some lv => { run5 with stdout_url := some lv }
      | none => run5
    appendLog run5 "Workflow completed successfully"
  | none => appendLog run4 "Workflow completed but failed to retrieve outputs"

/-- The terminal transition of _monitor_existing_run: assign the final
state and end_time, then either the COMPLETE bookkeeping or the failure
log with exit code 1. -/
def reconcileTerminal (run2 : WorkflowRun) (finalState : WorkflowState)
    (co : Option OutMap) (tEnd : Nat) : WorkflowRun :=
  let run3 := { run2 with state := finalState, end_time := some tEnd }
  if finalState = .COMPLETE then reconcileComplete run3 co
  else
    appendLog { run3 with exit_code := some 1 }
      ("Workflow failed with state " ++ finalState.value)

/-- WorkflowMonitor._monitor_existing_run on the fetched run (the
executor is the OmicsExecutor; with any other executor the source only
logs a warning and mutates nothing): check that the backend run exists,
run the monitoring loop, and close the run out terminally; none from the
loop means the polling never reached a decision, leaving the run as is. -/
def monitor_existing_run (run : WorkflowRun) (env : ReconcileEnv) : WorkflowRun :=
  if env.omics_found = false then reconcileNotFound run env.tEnd
  else
    match monitor_omics_run run env.polls env.monitor_outputs with
    | none => run
    | some (finalState, run2) =>
      reconcileTerminal run2 finalState env.complete_outputs env.tEnd

/-- The outer except branch of _monitor_existing_run: on an exception the
run is re-read in a fresh session and recorded as SYSTEM_ERROR with
end_time, a log line and exit code 1, whatever was last committed. -/
def monitor_existing_error (run : WorkflowRun) (msg : String) (now : Nat) : WorkflowRun :=
  appendLog { run with
    state := .SYSTEM_ERROR
    end_time := some now
    exit_code := some 1 }
    ("System error monitoring existing run: " ++ msg)

/-! ## The operations of the system

One inductive collects every embedded run-mutating operation of the
callback handler, the monitor (dispatch, cancellation, and the
reconcile/recovery phase) and the executors, so that the invariant claims
quantify over all of them at once.  The executor operations are entered
through WorkflowMonitor._execute_run, which first commits the
INITIALIZING update. -/

inductive MonitorOp where
  | callback (p : OmicsStateChangeCallback) (now : Nat)
  | cancelPhase (now : Nat)
  | dispatchInit
  | dispatchError (msg : String) (now : Nat)
  | localExec (tRun tEnd : Nat) (fail : Bool)
  | omicsExec (env : OmicsEnv)
  | checkExisting (now : Nat)
  | monitorExisting (env : ReconcileEnv)
  | monitorExistingError (msg : String) (now : Nat)

/-- The stored run after one operation.  A callback that raises an HTTP
error commits nothing, so the stored run is unchanged in that case. -/
def applyOp : MonitorOp → WorkflowRun → WorkflowRun
  | .callback p now, run =>
    match handle_omics_state_change (some run) p now with
    | .ok (_, run2) => run2
    | .error _ => run
  | .cancelPhase now, run => (cancel_run run now).1
  | .dispatchInit, run => execute_run_init run
  | .dispatchError msg now, run => execute_run_error run msg now
  | .localExec tRun tEnd fail, run => localExecute (execute_run_init run) tRun tEnd fail
  | .omicsExec env, run => omicsExecute (execute_run_init run) env
  | .checkExisting now, run => check_existing_run run now
  | .monitorExisting env, run => monitor_existing_run run env
  | .monitorExistingError msg now, run => monitor_existing_error run msg now

/-- States in which each operation is actually invoked by the system: the
dispatch path only picks up runs fetched by the QUEUED query, and the
reconcile phase only runs fetched by the RUNNING-or-INITIALIZING query;
the other operations carry no state precondition. -/
def opPre : MonitorOp → WorkflowRun → Prop
  | .dispatchInit, run => run.state = .QUEUED
  | .localExec _ _ _, run => run.state = .QUEUED
  | .omicsExec _, run => run.state = .QUEUED
  | .checkExisting _, run => run.state = .RUNNING ∨ run.state = .INITIALIZING
  | .monitorExisting _, run => run.state = .RUNNING ∨ run.state = .INITIALIZING
  | _, _ => True

/-- end_time is non-null exactly on the terminal states. -/
def EndTimeInv (run : WorkflowRun) : Prop :=
  run.end_time.isSome = true ↔ isTerminal run.state = true

/-- outputs is non-null only on RUNNING or a terminal state. -/
def OutputsInv (run : WorkflowRun) : Prop :=
  run.outputs.isSome = true → run.state = .RUNNING ∨ isTerminal run.state = true

/-- start_time is still null while the run has not yet entered RUNNING
through an executor, i.e. in QUEUED and in INITIALIZING. -/
def StartTimeInv (run : WorkflowRun) : Prop :=
  run.state = .QUEUED ∨ run.state = .INITIALIZING → run.start_time = none

/-- start_time after each operation: the executors stamp it on entering
RUNNING (the Omics executor only when workflow id extraction succeeded,
since it fails before RUNNING otherwise); every other operation leaves it
untouched. -/
def startAfter : MonitorOp → WorkflowRun → Option Nat
  | .callback _ _, run => run.start_time
  | .cancelPhase _, run => run.start_time
  | .dispatchInit, run => run.start_time
  | .dispatchError _ _, run => run.start_time
  | .localExec tRun _ _, _ => some tRun
  | .omicsExec env, run =>
    if env.extract_ok then some env.tRun else run.start_time
  | .checkExisting _, run => run.start_time
  | .monitorExisting _, run => run.start_time
  | .monitorExistingError _ _, run => run.start_time

/-- Transition table exactly as the specification states it: the six
listed rows, and no edge out of any other state. -/
def specTransitionTable (s : WorkflowState) : List WorkflowState :=
  match s with
  | .UNKNOWN => [.QUEUED, .INITIALIZING, .RUNNING, .SYSTEM_ERROR]
  | .QUEUED => [.INITIALIZING, .RUNNING, .CANCELED, .SYSTEM_ERROR]
  | .INITIALIZING => [.RUNNING, .CANCELED, .EXECUTOR_ERROR, .SYSTEM_ERROR]
  | .RUNNING => [.COMPLETE, .EXECUTOR_ERROR, .CANCELED, .SYSTEM_ERROR, .PAUSED]
  | .PAUSED => [.RUNNING, .CANCELED, .SYSTEM_ERROR]
  | .CANCELING => [.CANCELED, .SYSTEM_ERROR]
  | _ => []

/-- Sample row in a given state, used by concrete witnesses. -/
def mkRun (st : WorkflowState) : WorkflowRun :=
  { newRun "run-0001" "CWL" "omics:1234" with state := st }

/-- Sample callback payload with a given status and event id. -/
def mkPayload (status eid : String) : OmicsStateChangeCallback :=
  { omics_run_id := "omics-1"
    status := status
    wes_run_id := "run-0001"
    event_time := 1
    status_message := none
    failure_reason := none
    output_mapping := none
    event_id := eid
    log_urls := none }

/-! ## Field bookkeeping lemmas -/

@[simp] theorem appendLog_state (run : WorkflowRun) (msg : String) :
    (appendLog run msg).state = run.state := rfl

@[simp] theorem appendLog_start (run : WorkflowRun) (msg : String) :
    (appendLog run msg).start_time = run.start_time := rfl

@[simp] theorem appendLog_end (run : WorkflowRun) (msg : String) :
    (appendLog run msg).end_time = run.end_time := rfl

@[simp] theorem appendLog_exit (run : WorkflowRun) (msg : String) :
    (appendLog run msg).exit_code = run.exit_code := rfl

@[simp] theorem appendLog_outputs (run : WorkflowRun) (msg : String) :
    (appendLog run msg).outputs = run.outputs := rfl

@[simp] theorem appendLog_stdout (run : WorkflowRun) (msg : String) :
    (appendLog run msg).stdout_url = run.stdout_url := rfl

@[simp] theorem appendLog_logs (run : WorkflowRun) (msg : String) :
    (appendLog run msg).system_logs = run.system_logs ++ [msg] := rfl

@[simp] theorem appendOptLog_state (run : WorkflowRun) (m : Option String) (pre : String) :
    (appendOptLog run m pre).state = run.state := by cases m <;> rfl

@[simp] theorem appendOptLog_start (run : WorkflowRun) (m : Option String) (pre : String) :
    (appendOptLog run m pre).start_time = run.start_time := by cases m <;> rfl

@[simp] theorem appendOptLog_end (run : WorkflowRun) (m : Option String) (pre : String) :
    (appendOptLog run m pre).end_time = run.end_time := by cases m <;> rfl

@[simp] theorem appendOptLog_exit (run : WorkflowRun) (m : Option String) (pre : String) :
    (appendOptLog run m pre).exit_code = run.exit_code := by cases m <;> rfl

@[simp] theorem appendOptLog_outputs (run : WorkflowRun) (m : Option String) (pre : String) :
    (appendOptLog run m pre).outputs = run.outputs := by cases m <;> rfl

@[simp] theorem setOutKey_state (run : WorkflowRun) (k v : String) :
    (setOutKey run k v).state = run.state := rfl

@[simp] theorem setOutKey_start (run : WorkflowRun) (k v : String) :
    (setOutKey run k v).start_time = run.start_time := rfl

@[simp] theorem setOutKey_end (run : WorkflowRun) (k v : String) :
    (setOutKey run k v).end_time = run.end_time := rfl

@[simp] theorem setOutKey_exit (run : WorkflowRun) (k v : String) :
    (setOutKey run k v).exit_code = run.exit_code := rfl

@[simp] theorem setOutKey_outputs_isSome (run : WorkflowRun) (k v : String) :
    (setOutKey run k v).outputs.isSome = true := rfl

/-- A legal transition never starts from a terminal state. -/
theorem valid_from_nonterminal :
    ∀ f t : WorkflowState, is_valid_transition f t = true → isTerminal f = false := by
  decide

/-- No transition out of a terminal state is legal. -/
theorem terminal_no_valid :
    ∀ f t : WorkflowState, isTerminal f = true → is_valid_transition f t = false := by
  decide

/-- Every state in the image of OMICS_STATUS_MAP is COMPLETE,
EXECUTOR_ERROR, CANCELED or RUNNING. -/
theorem map_range (s : String) (ns : WorkflowState)
    (h : OMICS_STATUS_MAP s = some ns) :
    ns = .COMPLETE ∨ ns = .EXECUTOR_ERROR ∨ ns = .CANCELED ∨ ns = .RUNNING := by
  unfold OMICS_STATUS_MAP at h
  split at h <;> simp_all

set_option maxHeartbeats 1600000 in
/-- Characterization of the terminal block of the callback update. -/
theorem applyTerminal_spec (run : WorkflowRun) (ns : WorkflowState)
    (p : OmicsStateChangeCallback) (now : Nat) :
    (applyTerminal run ns p now).state = run.state ∧
    (applyTerminal run ns p now).start_time = run.start_time ∧
    (applyTerminal run ns p now).end_time =
      (if isTerminal ns then
        (if run.end_time = none then some now else run.end_time)
       else run.end_time) ∧
    (applyTerminal run ns p now).exit_code =
      (if isTerminal ns then (if ns = .COMPLETE then some 0 else some 1)
       else run.exit_code) ∧
    ((applyTerminal run ns p now).outputs.isSome = true →
      run.outputs.isSome = true ∨ isTerminal ns = true) := by
  unfold applyTerminal
  by_cases hT : isTerminal ns = true
  · simp only [hT, if_true]
    by_cases hE : run.end_time = none <;>
      cases p.log_urls <;>
      by_cases hC : ns = WorkflowState.COMPLETE <;>
      cases p.output_mapping <;>
      simp_all [setOutKey]
  · simp only [hT]
    simp_all

/-- Characterization of the callback mutation section. -/
theorem applyUpdate_spec (run : WorkflowRun) (ns : WorkflowState)
    (p : OmicsStateChangeCallback) (now : Nat) :
    (applyUpdate run ns p now).state = ns ∧
    (applyUpdate run ns p now).start_time = run.start_time ∧
    (applyUpdate run ns p now).end_time =
      (if isTerminal ns then
        (if run.end_time = none then some now else run.end_time)
       else run.end_time) ∧
    (applyUpdate run ns p now).exit_code =
      (if isTerminal ns then (if ns = .COMPLETE then some 0 else some 1)
       else run.exit_code) ∧
    ((applyUpdate run ns p now).outputs.isSome = true →
      run.outputs.isSome = true ∨ isTerminal ns = true) := by
  unfold applyUpdate
  have h := applyTerminal_spec
    (appendOptLog
      (appendOptLog
        (appendLog { run with state := ns }
          ("State updated via callback: " ++ run.state.value ++ " -> " ++ ns.value
            ++ " (Omics: " ++ p.status ++ ")"))
        p.status_message "Status: ")
      p.failure_reason "Failure reason: ") ns p now
  simp only [appendOptLog_state, appendOptLog_start, appendOptLog_end,
    appendOptLog_exit, appendOptLog_outputs, appendLog_state, appendLog_start,
    appendLog_end, appendLog_exit, appendLog_outputs] at h
  exact h

/-- The run stored after a callback operation is either unchanged or the
result of applyUpdate along a mapped, validated transition. -/
theorem applyOp_callback_cases (p : OmicsStateChangeCallback) (now : Nat)
    (run : WorkflowRun) :
    applyOp (.callback p now) run = run ∨
    ∃ ns, OMICS_STATUS_MAP p.status = some ns ∧
      is_valid_transition run.state ns = true ∧
      applyOp (.callback p now) run = applyUpdate run ns p now := by
  have hdef : applyOp (.callback p now) run =
      (match handle_omics_state_change (some run) p now with
        | .ok (_, run2) => run2
        | .error _ => run) := rfl
  rw [show handle_omics_state_change (some run) p now = handleRun run p now
    from rfl] at hdef
  unfold handleRun at hdef
  cases hns : OMICS_STATUS_MAP p.status with
  | none =>
    rw [hns] at hdef
    simp at hdef
    exact Or.inl hdef
  | some ns =>
    rw [hns] at hdef
    simp at hdef
    by_cases hv : is_valid_transition run.state ns = true
    · rw [if_pos hv] at hdef
      simp at hdef
      exact Or.inr ⟨ns, rfl, hv, hdef⟩
    · rw [if_neg hv] at hdef
      left
      by_cases hT : isTerminal run.state = true
      · rw [if_pos hT] at hdef
        simpa using hdef
      · rw [if_neg hT] at hdef
        simpa using hdef

@[simp] theorem omicsInitPhase_state (run : WorkflowRun) :
    (omicsInitPhase run).state = .INITIALIZING := rfl

@[simp] theorem omicsInitPhase_start (run : WorkflowRun) :
    (omicsInitPhase run).start_time = run.start_time := rfl

@[simp] theorem omicsInitPhase_end (run : WorkflowRun) :
    (omicsInitPhase run).end_time = run.end_time := rfl

@[simp] theorem omicsInitPhase_exit (run : WorkflowRun) :
    (omicsInitPhase run).exit_code = run.exit_code := rfl

@[simp] theorem omicsInitPhase_outputs (run : WorkflowRun) :
    (omicsInitPhase run).outputs = run.outputs := rfl

@[simp] theorem omicsFail_state (run : WorkflowRun) (msg : String) (t : Nat) :
    (omicsFail run msg t).state = .SYSTEM_ERROR := rfl

@[simp] theorem omicsFail_start (run : WorkflowRun) (msg : String) (t : Nat) :
    (omicsFail run msg t).start_time = run.start_time := rfl

@[simp] theorem omicsFail_end (run : WorkflowRun) (msg : String) (t : Nat) :
    (omicsFail run msg t).end_time = some t := rfl

@[simp] theorem omicsFail_exit (run : WorkflowRun) (msg : String) (t : Nat) :
    (omicsFail run msg t).exit_code = some 1 := rfl

@[simp] theorem omicsFail_outputs (run : WorkflowRun) (msg : String) (t : Nat) :
    (omicsFail run msg t).outputs = run.outputs := rfl

@[simp] theorem omicsStartPhase_state (run : WorkflowRun) (t : Nat) :
    (omicsStartPhase run t).state = .RUNNING := rfl

@[simp] theorem omicsStartPhase_start (run : WorkflowRun) (t : Nat) :
    (omicsStartPhase run t).start_time = some t := rfl

@[simp] theorem omicsStartPhase_end (run : WorkflowRun) (t : Nat) :
    (omicsStartPhase run t).end_time = run.end_time := rfl

@[simp] theorem omicsStartPhase_exit (run : WorkflowRun) (t : Nat) :
    (omicsStartPhase run t).exit_code = run.exit_code := rfl

@[simp] theorem omicsStartPhase_outputs (run : WorkflowRun) (t : Nat) :
    (omicsStartPhase run t).outputs = run.outputs := rfl

@[simp] theorem omicsStarted_state (run : WorkflowRun) (oid : String) :
    (omicsStarted run oid).state = run.state := rfl

@[simp] theorem omicsStarted_start (run : WorkflowRun) (oid : String) :
    (omicsStarted run oid).start_time = run.start_time := rfl

@[simp] theorem omicsStarted_end (run : WorkflowRun) (oid : String) :
    (omicsStarted run oid).end_time = run.end_time := rfl

@[simp] theorem omicsStarted_exit (run : WorkflowRun) (oid : String) :
    (omicsStarted run oid).exit_code = run.exit_code := rfl

@[simp] theorem omicsStarted_outputs_isSome (run : WorkflowRun) (oid : String) :
    (omicsStarted run oid).outputs.isSome = true := rfl

/-- The monitoring loop only returns terminal states, touches no field of
the run other than system_logs and outputs, and never clears outputs. -/
theorem monitor_omics_run_spec :
    ∀ (polls : List OmicsPoll) (run : WorkflowRun) (mOut : OutMap)
      (st : WorkflowState) (r2 : WorkflowRun),
      monitor_omics_run run polls mOut = some (st, r2) →
      isTerminal st = true ∧ r2.state = run.state ∧
      r2.start_time = run.start_time ∧ r2.end_time = run.end_time ∧
      r2.exit_code = run.exit_code ∧
      (run.outputs.isSome = true → r2.outputs.isSome = true) := by
  intro polls
  induction polls with
  | nil =>
    intro run mOut st r2 h
    simp [monitor_omics_run] at h
  | cons hd tl ih =>
    intro run mOut st r2 h
    cases hd with
    | exc =>
      rw [monitor_omics_run] at h
      simp at h
      obtain ⟨rfl, rfl⟩ := h
      simp [isTerminal, TERMINAL_STATES]
    | status s =>
      simp only [monitor_omics_run] at h
      split at h <;>
        first
        | (simpa using ih _ mOut st r2 h)
        | (simp at h
           obtain ⟨rfl, rfl⟩ := h
           by_cases hm : mOut = [] <;>
             simp [hm, isTerminal, TERMINAL_STATES])

/-- Field characterization of the COMPLETE branch bookkeeping. -/
theorem omicsCompletePhase_spec (run : WorkflowRun) (co : Option OutMap) :
    (omicsCompletePhase run co).state = run.state ∧
    (omicsCompletePhase run co).start_time = run.start_time ∧
    (omicsCompletePhase run co).end_time = run.end_time ∧
    (omicsCompletePhase run co).exit_code = some 0 := by
  cases co with
  | none => simp [omicsCompletePhase]
  | some o =>
    cases hg : omapGet o "logs" <;> simp [omicsCompletePhase, hg]

/-- Field characterization of the double-check block: timestamps and
outputs are untouched, and the state and exit code are either untouched or
overridden to COMPLETE with exit code 0. -/
theorem omicsDoubleCheck_spec (run : WorkflowRun) (aws : Option String) :
    (omicsDoubleCheck run aws).start_time = run.start_time ∧
    (omicsDoubleCheck run aws).end_time = run.end_time ∧
    (omicsDoubleCheck run aws).outputs = run.outputs ∧
    (((omicsDoubleCheck run aws).state = run.state ∧
      (omicsDoubleCheck run aws).exit_code = run.exit_code) ∨
     ((omicsDoubleCheck run aws).state = .COMPLETE ∧
      (omicsDoubleCheck run aws).exit_code = some 0)) := by
  unfold omicsDoubleCheck
  by_cases hs : (run.state = WorkflowState.EXECUTOR_ERROR
      || run.state = WorkflowState.SYSTEM_ERROR) = true
  · simp only [hs, if_true]
    cases aws with
    | none => simp
    | some s =>
      by_cases hc : s = "COMPLETED" <;> simp [hc]
  · simp only [Bool.not_eq_true] at hs
    simp [hs]

/-- Field characterization of the terminal transition after monitoring:
always terminal with end_time set, exit code 0 exactly on COMPLETE. -/
theorem omicsTerminal_spec (run2 : WorkflowRun) (finalState : WorkflowState)
    (co : Option OutMap) (tEnd : Nat) (hterm : isTerminal finalState = true) :
    isTerminal (omicsTerminal run2 finalState co tEnd).state = true ∧
    (omicsTerminal run2 finalState co tEnd).start_time = run2.start_time ∧
    (omicsTerminal run2 finalState co tEnd).end_time = some tEnd ∧
    ((omicsTerminal run2 finalState co tEnd).exit_code = some 0 ↔
      (omicsTerminal run2 finalState co tEnd).state = .COMPLETE) := by
  unfold omicsTerminal
  by_cases hc : finalState = WorkflowState.COMPLETE
  · obtain ⟨cs, cstart, cend, cexit⟩ := omicsCompletePhase_spec
      { run2 with state := finalState, end_time := some tEnd } co
    rw [if_pos hc]
    refine ⟨?_, ?_, ?_, ?_⟩
    · rw [cs]
      simp [hc, isTerminal, TERMINAL_STATES]
    · rw [cstart]
    · rw [cend]
    · rw [cexit, cs]
      simp [hc]
  · rw [if_neg hc]
    refine ⟨?_, ?_, ?_, ?_⟩ <;> simp [hterm, hc]

/-- Full characterization of one Omics execution as entered from
_execute_run: either the run is left RUNNING (monitoring never reached a
decisive status), or it reaches a terminal state with end_time set and
exit code 0 exactly on COMPLETE; start_time is set on entering RUNNING
and only then. -/
theorem omicsExecute_spec (run : WorkflowRun) (env : OmicsEnv) :
    ((omicsExecute run env).start_time =
      if env.extract_ok then some env.tRun else run.start_time) ∧
    (((omicsExecute run env).state = .RUNNING ∧
      (omicsExecute run env).end_time = run.end_time ∧
      (omicsExecute run env).exit_code = run.exit_code) ∨
     (isTerminal (omicsExecute run env).state = true ∧
      (omicsExecute run env).end_time = some env.tEnd ∧
      ((omicsExecute run env).exit_code = some 0 ↔
        (omicsExecute run env).state = .COMPLETE))) := by
  unfold omicsExecute
  by_cases he : env.extract_ok = false
  · rw [if_pos he]
    constructor
    · simp [he]
    · right
      simp [isTerminal, TERMINAL_STATES]
  · rw [if_neg he]
    simp only [Bool.not_eq_false] at he
    cases hso : env.start_ok with
    | none =>
      constructor
      · simp [he]
      · right
        simp [isTerminal, TERMINAL_STATES]
    | some oid =>
      cases hmon : monitor_omics_run
          (omicsStarted (omicsStartPhase (omicsInitPhase run) env.tRun) oid)
          env.polls env.monitor_outputs with
      | none =>
        simp only [hmon]
        constructor
        · simp [he]
        · left
          simp
      | some pr =>
        obtain ⟨finalState, run2⟩ := pr
        simp only [hmon]
        obtain ⟨hterm, hst, hstart, hend, hexit, -⟩ :=
          monitor_omics_run_spec env.polls _ env.monitor_outputs finalState run2 hmon
        obtain ⟨ts, tstart, tend, texit⟩ :=
          omicsTerminal_spec run2 finalState env.complete_outputs env.tEnd hterm
        obtain ⟨dstart, dend, -, hd⟩ := omicsDoubleCheck_spec
          (omicsTerminal run2 finalState env.complete_outputs env.tEnd) env.aws_check
        constructor
        · rw [dstart, tstart, hstart]
          simp [he]
        · right
          rcases hd with ⟨hd1, hd2⟩ | ⟨hd1, hd2⟩
          · rw [hd1, hd2, dend, tend]
            exact ⟨ts, rfl, texit⟩
          · rw [hd1, hd2, dend, tend]
            simp [isTerminal, TERMINAL_STATES]

@[simp] theorem applyOp_cancel (now : Nat) (run : WorkflowRun) :
    applyOp (.cancelPhase now) run = (cancel_run run now).1 := rfl

@[simp] theorem applyOp_init (run : WorkflowRun) :
    applyOp .dispatchInit run = execute_run_init run := rfl

@[simp] theorem applyOp_error (msg : String) (now : Nat) (run : WorkflowRun) :
    applyOp (.dispatchError msg now) run = execute_run_error run msg now := rfl

@[simp] theorem applyOp_local (tRun tEnd : Nat) (fail : Bool) (run : WorkflowRun) :
    applyOp (.localExec tRun tEnd fail) run =
      localExecute (execute_run_init run) tRun tEnd fail := rfl

@[simp] theorem applyOp_omics (env : OmicsEnv) (run : WorkflowRun) :
    applyOp (.omicsExec env) run = omicsExecute (execute_run_init run) env := rfl

@[simp] theorem execute_run_init_state (run : WorkflowRun) :
    (execute_run_init run).state = .INITIALIZING := rfl

@[simp] theorem execute_run_init_start (run : WorkflowRun) :
    (execute_run_init run).start_time = run.start_time := rfl

@[simp] theorem execute_run_init_end (run : WorkflowRun) :
    (execute_run_init run).end_time = run.end_time := rfl

@[simp] theorem execute_run_init_exit (run : WorkflowRun) :
    (execute_run_init run).exit_code = run.exit_code := rfl

@[simp] theorem execute_run_init_outputs (run : WorkflowRun) :
    (execute_run_init run).outputs = run.outputs := rfl

/-- A nonterminal run satisfying the end_time invariant has no end_time. -/
theorem endtime_none_of_nonterminal (run : WorkflowRun) (hinv : EndTimeInv run)
    (h : isTerminal run.state = false) : run.end_time = none := by
  rcases hE : run.end_time with _ | t
  · rfl
  · have hs : run.end_time.isSome = true := by rw [hE]; rfl
    rw [EndTimeInv] at hinv
    rw [hinv.mp hs] at h
    cases h

/-- Full characterization of the local stub executor: it stamps
start_time on entering RUNNING and finishes terminal with end_time and an
exit code that is 0 exactly on COMPLETE. -/
theorem localExecute_spec (run : WorkflowRun) (tRun tEnd : Nat) (fail : Bool) :
    (localExecute run tRun tEnd fail).start_time = some tRun ∧
    (localExecute run tRun tEnd fail).end_time = some tEnd ∧
    isTerminal (localExecute run tRun tEnd fail).state = true ∧
    ((localExecute run tRun tEnd fail).exit_code = some 0 ↔
      (localExecute run tRun tEnd fail).state = .COMPLETE) := by
  cases fail <;> simp [localExecute, isTerminal, TERMINAL_STATES]

/-- The dispatch loop starts at most one execution per fetched row and
grows active_runs by exactly the number of started executions. -/
theorem dispatch_loop_spec :
    ∀ (fetched active : List String),
      (dispatch_loop fetched active).1.length ≤ fetched.length ∧
      (dispatch_loop fetched active).2.length =
        active.length + (dispatch_loop fetched active).1.length := by
  intro fetched
  induction fetched with
  | nil =>
    intro active
    simp [dispatch_loop]
  | cons rid rest ih =>
    intro active
    by_cases hm : rid ∈ active
    · simp only [dispatch_loop, if_pos hm]
      obtain ⟨h1, h2⟩ := ih active
      exact ⟨Nat.le_succ_of_le h1, h2⟩
    · simp only [dispatch_loop, if_neg hm]
      obtain ⟨h1, h2⟩ := ih (rid :: active)
      simp only [List.length_cons] at *
      omega

@[simp] theorem applyOp_checkExisting (now : Nat) (run : WorkflowRun) :
    applyOp (.checkExisting now) run = check_existing_run run now := rfl

@[simp] theorem applyOp_monitorExisting (env : ReconcileEnv) (run : WorkflowRun) :
    applyOp (.monitorExisting env) run = monitor_existing_run run env := rfl

@[simp] theorem applyOp_monitorExistingError (msg : String) (now : Nat)
    (run : WorkflowRun) :
    applyOp (.monitorExistingError msg now) run =
      monitor_existing_error run msg now := rfl

/-- A terminal state is neither QUEUED nor INITIALIZING. -/
theorem terminal_not_queued_init :
    ∀ s : WorkflowState, isTerminal s = true →
      s = .QUEUED ∨ s = .INITIALIZING → False := by
  decide

/-- The per-run reconcile check either leaves the run untouched or marks
it CANCELED with end_time, touching no other field. -/
theorem check_existing_run_spec (run : WorkflowRun) (now : Nat) :
    check_existing_run run now = run ∨
    ((check_existing_run run now).state = .CANCELED ∧
     (check_existing_run run now).end_time = some now ∧
     (check_existing_run run now).exit_code = run.exit_code ∧
     (check_existing_run run now).start_time = run.start_time ∧
     (check_existing_run run now).outputs = run.outputs) := by
  unfold check_existing_run
  by_cases hk : ((run.outputs.getD []).any (fun kv => kv.1 == "omics_run_id")) = true
  · rw [if_pos hk]
    exact Or.inl rfl
  · rw [if_neg hk]
    exact Or.inr ⟨rfl, rfl, rfl, rfl, rfl⟩

/-- Field characterization of the reconcile COMPLETE bookkeeping. -/
theorem reconcileComplete_spec (run3 : WorkflowRun) (co : Option OutMap) :
    (reconcileComplete run3 co).state = run3.state ∧
    (reconcileComplete run3 co).start_time = run3.start_time ∧
    (reconcileComplete run3 co).end_time = run3.end_time ∧
    (reconcileComplete run3 co).exit_code = some 0 := by
  cases co with
  | none => simp [reconcileComplete]
  | some o =>
    cases hg : omapGet o "logs" <;> simp [reconcileComplete, hg]

/-- Field characterization of the reconcile terminal transition: always
terminal with end_time set, exit code 0 exactly on COMPLETE. -/
theorem reconcileTerminal_spec (run2 : WorkflowRun) (finalState : WorkflowState)
    (co : Option OutMap) (tEnd : Nat) (hterm : isTerminal finalState = true) :
    isTerminal (reconcileTerminal run2 finalState co tEnd).state = true ∧
    (reconcileTerminal run2 finalState co tEnd).start_time = run2.start_time ∧
    (reconcileTerminal run2 finalState co tEnd).end_time = some tEnd ∧
    ((reconcileTerminal run2 finalState co tEnd).exit_code = some 0 ↔
      (reconcileTerminal run2 finalState co tEnd).state = .COMPLETE) := by
  unfold reconcileTerminal
  by_cases hc : finalState = WorkflowState.COMPLETE
  · obtain ⟨cs, cstart, cend, cexit⟩ := reconcileComplete_spec
      { run2 with state := finalState, end_time := some tEnd } co
    rw [if_pos hc]
    refine ⟨?_, ?_, ?_, ?_⟩
    · rw [cs]
      simp [hc, isTerminal, TERMINAL_STATES]
    · rw [cstart]
    · rw [cend]
    · rw [cexit, cs]
      simp [hc]
  · rw [if_neg hc]
    refine ⟨?_, ?_, ?_, ?_⟩ <;> simp [hterm, hc]

/-- Full characterization of one reconcile monitoring pass: either the
run is left exactly as it was (polling never reached a decision), or it
is closed out terminally with end_time set and exit code 0 exactly on
COMPLETE; start_time is never touched. -/
theorem monitor_existing_run_spec (run : WorkflowRun) (env : ReconcileEnv) :
    (monitor_existing_run run env).start_time = run.start_time ∧
    (monitor_existing_run run env = run ∨
     (isTerminal (monitor_existing_run run env).state = true ∧
      (monitor_existing_run run env).end_time = some env.tEnd ∧
      ((monitor_existing_run run env).exit_code = some 0 ↔
        (monitor_existing_run run env).state = .COMPLETE))) := by
  unfold monitor_existing_run
  by_cases hf : env.omics_found = false
  · rw [if_pos hf]
    constructor
    · simp [reconcileNotFound]
    · right
      simp [reconcileNotFound, isTerminal, TERMINAL_STATES]
  · rw [if_neg hf]
    cases hmon : monitor_omics_run run env.polls env.monitor_outputs with
    | none =>
      constructor
      · simp [hmon]
      · left
        simp [hmon]
    | some pr =>
      obtain ⟨finalState, run2⟩ := pr
      simp only [hmon]
      obtain ⟨hterm, -, hstart, -, -, -⟩ :=
        monitor_omics_run_spec env.polls run env.monitor_outputs finalState run2 hmon
      obtain ⟨ts, tstart, tend, texit⟩ :=
        reconcileTerminal_spec run2 finalState env.complete_outputs env.tEnd hterm
      refine ⟨?_, Or.inr ⟨ts, tend, texit⟩⟩
      rw [tstart, hstart]

/-! ## Claim C1 -/

/-- Claim C1: the transition validator returns legal exactly for the edges
of the transition table of the specification, and returns illegal for
every transition out of each of the four terminal states. -/
theorem C1_transition_validator_exact :
    (∀ f t : WorkflowState, is_valid_transition f t = true ↔ t ∈ specTransitionTable f) ∧
    (∀ t : WorkflowState,
      is_valid_transition .COMPLETE t = false ∧
      is_valid_transition .EXECUTOR_ERROR t = false ∧
      is_valid_transition .SYSTEM_ERROR t = false ∧
      is_valid_transition .CANCELED t = false) := by
  constructor
  · intro f t
    cases f <;> cases t <;> decide
  · intro t
    cases t <;> decide

/-! ## Claim C2 -/

/-- Claim C2: a callback whose status maps to an internal state, arriving
for a run whose stored state is terminal, returns a success response
reporting the current state and leaves the stored run entirely unchanged. -/
theorem C2_terminal_absorption (run : WorkflowRun) (p : OmicsStateChangeCallback)
    (now : Nat) (hterm : isTerminal run.state = true)
    (hmap : (OMICS_STATUS_MAP p.status).isSome = true) :
    ∃ resp : CallbackResponse,
      handle_omics_state_change (some run) p now = Except.ok (resp, run) ∧
      resp.success = true ∧ resp.previous_state = run.state.value ∧
      resp.new_state = run.state.value := by
  obtain ⟨ns, hns⟩ := Option.isSome_iff_exists.mp hmap
  have hv : is_valid_transition run.state ns = false :=
    terminal_no_valid run.state ns hterm
  refine ⟨{ success := true
            wes_run_id := run.id
            previous_state := run.state.value
            new_state := run.state.value
            message := "Run already in terminal state " ++ run.state.value
            already_processed := false }, ?_, rfl, rfl, rfl⟩
  show handleRun run p now = _
  unfold handleRun
  rw [hns]
  simp [hv, hterm]

/-- Concrete witness for C2: a COMPLETE run absorbing a FAILED callback. -/
theorem C2_terminal_absorption_witness :
    ∃ resp : CallbackResponse,
      handle_omics_state_change (some (mkRun .COMPLETE)) (mkPayload "FAILED" "e9") 3 =
        Except.ok (resp, mkRun .COMPLETE) ∧
      resp.success = true ∧ resp.previous_state = (mkRun .COMPLETE).state.value ∧
      resp.new_state = (mkRun .COMPLETE).state.value :=
  C2_terminal_absorption (mkRun .COMPLETE) (mkPayload "FAILED" "e9") 3
    (by decide) (by decide)

/-! ## Claim C3 -/

/-- Claim C3 (code bug evidence): WorkflowRun has no last_event_id
column, so the duplicate-event guard never fires.  Delivering the same
COMPLETED event (same event id) twice to a RUNNING run leaves the stored
run unchanged by the second delivery, but the second delivery is absorbed
by the terminal-state guard and reports already_processed = false, not
true as specified. -/
theorem C3_duplicate_event_not_flagged :
    ∃ (resp1 resp2 : CallbackResponse) (r1 : WorkflowRun),
      handle_omics_state_change (some (mkRun .RUNNING)) (mkPayload "COMPLETED" "e1") 5 =
        Except.ok (resp1, r1) ∧
      handle_omics_state_change (some r1) (mkPayload "COMPLETED" "e1") 6 =
        Except.ok (resp2, r1) ∧
      resp2.already_processed = false :=
  ⟨_, _, _, rfl, rfl, rfl⟩

/-! ## Claim C4 -/

/-- Claim C4 counterexample: on a concrete CANCELING run, the cancellation
phase performs no executor call at all, in particular no Cancel call for
that run, even though it does move the run to CANCELED. -/
theorem C4_counterexample :
    (cancel_run (mkRun .CANCELING) 5).2 = [] ∧
    ¬ (ExecCall.cancelCall (mkRun .CANCELING).id ∈ (cancel_run (mkRun .CANCELING) 5).2) ∧
    (cancel_run (mkRun .CANCELING) 5).1.state = .CANCELED := by
  refine ⟨rfl, ?_, rfl⟩
  intro h
  simp [cancel_run] at h

/-- Claim C4 as amended: one iteration of the cancellation phase on a
CANCELING run sets CANCELED, sets end_time, and appends the fixed log
line, without invoking the executor Cancel operation. -/
theorem C4_cancel_phase (run : WorkflowRun) (now : Nat)
    (h : run.state = .CANCELING) :
    (cancel_run run now).1.state = .CANCELED ∧
    (cancel_run run now).1.end_time = some now ∧
    (cancel_run run now).1.system_logs =
      run.system_logs ++ ["Workflow canceled by user"] ∧
    (cancel_run run now).2 = [] :=
  ⟨rfl, rfl, rfl, rfl⟩

/-- Concrete witness for the amended C4. -/
theorem C4_cancel_phase_witness :
    (cancel_run (mkRun .CANCELING) 7).1.state = .CANCELED ∧
    (cancel_run (mkRun .CANCELING) 7).1.end_time = some 7 ∧
    (cancel_run (mkRun .CANCELING) 7).1.system_logs =
      (mkRun .CANCELING).system_logs ++ ["Workflow canceled by user"] ∧
    (cancel_run (mkRun .CANCELING) 7).2 = [] :=
  C4_cancel_phase (mkRun .CANCELING) 7 rfl

/-! ## Claim C5 -/

/-- Claim C5: a freshly created run satisfies the end_time invariant, and
every operation of the callback handler, the monitor (dispatch,
cancellation, and the reconcile/recovery phase with its error path) and
the executors preserves it: afterwards end_time is non-null exactly when
the state is terminal. -/
theorem C5_end_time_iff_terminal :
    (∀ rid wtype wurl : String, EndTimeInv (newRun rid wtype wurl)) ∧
    (∀ (op : MonitorOp) (run : WorkflowRun), opPre op run → EndTimeInv run →
      EndTimeInv (applyOp op run)) := by
  constructor
  · intro rid wtype wurl
    simp [EndTimeInv, newRun, isTerminal, TERMINAL_STATES]
  · intro op run hpre hinv
    cases op with
    | callback p now =>
      rcases applyOp_callback_cases p now run with heq | ⟨ns, hns, hv, heq⟩
      · rwa [heq]
      · rw [heq]
        obtain ⟨hst, -, hend, -, -⟩ := applyUpdate_spec run ns p now
        have hfrom : isTerminal run.state = false := valid_from_nonterminal _ _ hv
        have hnone : run.end_time = none :=
          endtime_none_of_nonterminal run hinv hfrom
        rw [EndTimeInv, hst, hend, hnone]
        by_cases hT : isTerminal ns = true <;> simp [hT]
    | cancelPhase now =>
      rw [EndTimeInv, applyOp_cancel]
      simp [cancel_run, isTerminal, TERMINAL_STATES]
    | dispatchInit =>
      have hfrom : isTerminal run.state = false := by rw [hpre]; decide
      have hnone : run.end_time = none :=
        endtime_none_of_nonterminal run hinv hfrom
      rw [EndTimeInv, applyOp_init]
      simp [hnone, isTerminal, TERMINAL_STATES]
    | dispatchError msg now =>
      rw [EndTimeInv, applyOp_error]
      simp [execute_run_error, isTerminal, TERMINAL_STATES]
    | localExec tRun tEnd fail =>
      obtain ⟨-, hend, hT, -⟩ := localExecute_spec (execute_run_init run) tRun tEnd fail
      rw [EndTimeInv, applyOp_local, hend, hT]
      simp
    | omicsExec env =>
      have hfrom : isTerminal run.state = false := by rw [hpre]; decide
      have hnone : run.end_time = none :=
        endtime_none_of_nonterminal run hinv hfrom
      obtain ⟨-, hcase⟩ := omicsExecute_spec (execute_run_init run) env
      rw [EndTimeInv, applyOp_omics]
      rcases hcase with ⟨h1, h2, -⟩ | ⟨h1, h2, -⟩
      · rw [h1, h2]
        simp [hnone, isTerminal, TERMINAL_STATES]
      · rw [h1, h2]
        simp
    | checkExisting now =>
      rcases check_existing_run_spec run now with heq | ⟨h1, h2, -, -, -⟩
      · rw [EndTimeInv, applyOp_checkExisting, heq]
        exact hinv
      · rw [EndTimeInv, applyOp_checkExisting, h1, h2]
        simp [isTerminal, TERMINAL_STATES]
    | monitorExisting env =>
      rcases (monitor_existing_run_spec run env).2 with heq | ⟨h1, h2, -⟩
      · rw [EndTimeInv, applyOp_monitorExisting, heq]
        exact hinv
      · rw [EndTimeInv, applyOp_monitorExisting, h1, h2]
        simp
    | monitorExistingError msg now =>
      rw [EndTimeInv, applyOp_monitorExistingError]
      simp [monitor_existing_error, isTerminal, TERMINAL_STATES]

/-- Concrete witness for C5: the cancellation phase on a CANCELING run. -/
theorem C5_end_time_iff_terminal_witness :
    EndTimeInv (applyOp (MonitorOp.cancelPhase 5) (mkRun .CANCELING)) :=
  C5_end_time_iff_terminal.2 (MonitorOp.cancelPhase 5) (mkRun .CANCELING)
    trivial (by rw [EndTimeInv]; decide)

/-! ## Claim C6 -/

/-- Claim C6 counterexample: a FAILED callback carrying log urls leaves
the run in EXECUTOR_ERROR, which is not COMPLETE, with non-null outputs. -/
theorem C6_counterexample :
    (Except.toOption (handle_omics_state_change (some (mkRun .RUNNING))
        { mkPayload "FAILED" "e1" with log_urls := some "urls" } 7)).map
      (fun x => (x.2.state, x.2.outputs.isSome)) =
      some (WorkflowState.EXECUTOR_ERROR, true) ∧
    WorkflowState.EXECUTOR_ERROR ≠ WorkflowState.COMPLETE := by
  decide

/-- Claim C6 as amended: every operation of the callback handler, the
monitor (dispatch, cancellation, and the reconcile/recovery phase, whose
close-out writes outputs wholesale on COMPLETE) and the executors
preserves the invariant that outputs is non-null only when the run is
RUNNING (the Omics executor stores the backend run id there while
RUNNING) or in a terminal state (the callback handler stores log urls on
any terminal transition). -/
theorem C6_outputs_running_or_terminal (op : MonitorOp) (run : WorkflowRun)
    (hpre : opPre op run) (hinv : OutputsInv run) :
    OutputsInv (applyOp op run) := by
  cases op with
  | callback p now =>
    rcases applyOp_callback_cases p now run with heq | ⟨ns, hns, hv, heq⟩
    · rwa [heq]
    · rw [heq]
      intro hS
      obtain ⟨hst, -, -, -, -⟩ := applyUpdate_spec run ns p now
      rw [hst]
      rcases map_range p.status ns hns with rfl | rfl | rfl | rfl
      · right; decide
      · right; decide
      · right; decide
      · left; rfl
  | cancelPhase now =>
    intro hS
    right
    rw [applyOp_cancel]
    simp [cancel_run, isTerminal, TERMINAL_STATES]
  | dispatchInit =>
    intro hS
    rw [applyOp_init] at hS
    simp only [execute_run_init_outputs] at hS
    rcases hinv hS with hR | hT
    · rw [hpre] at hR
      cases hR
    · rw [hpre] at hT
      cases hT
  | dispatchError msg now =>
    intro hS
    right
    rw [applyOp_error]
    simp [execute_run_error, isTerminal, TERMINAL_STATES]
  | localExec tRun tEnd fail =>
    intro hS
    right
    obtain ⟨-, -, hT, -⟩ := localExecute_spec (execute_run_init run) tRun tEnd fail
    rw [applyOp_local]
    exact hT
  | omicsExec env =>
    intro hS
    obtain ⟨-, hcase⟩ := omicsExecute_spec (execute_run_init run) env
    rw [applyOp_omics]
    rcases hcase with ⟨h1, -, -⟩ | ⟨h1, -, -⟩
    · left; exact h1
    · right; exact h1
  | checkExisting now =>
    rcases check_existing_run_spec run now with heq | ⟨h1, -, -, -, -⟩
    · rw [applyOp_checkExisting, heq]
      exact hinv
    · intro hS
      right
      rw [applyOp_checkExisting, h1]
      decide
  | monitorExisting env =>
    rcases (monitor_existing_run_spec run env).2 with heq | ⟨h1, -, -⟩
    · rw [applyOp_monitorExisting, heq]
      exact hinv
    · intro hS
      right
      rw [applyOp_monitorExisting]
      exact h1
  | monitorExistingError msg now =>
    intro hS
    right
    rw [applyOp_monitorExistingError]
    simp [monitor_existing_error, isTerminal, TERMINAL_STATES]

/-- Concrete witness for the amended C6. -/
theorem C6_outputs_running_or_terminal_witness :
    OutputsInv (applyOp (MonitorOp.cancelPhase 5) (mkRun .RUNNING)) :=
  C6_outputs_running_or_terminal (MonitorOp.cancelPhase 5) (mkRun .RUNNING)
    trivial (by rw [OutputsInv]; decide)

/-! ## Claim C7 -/

/-- Claim C7 counterexample: the cancellation phase produces a run in the
terminal state CANCELED whose exit_code is null. -/
theorem C7_counterexample :
    (cancel_run (mkRun .CANCELING) 5).1.state = .CANCELED ∧
    isTerminal (cancel_run (mkRun .CANCELING) 5).1.state = true ∧
    (cancel_run (mkRun .CANCELING) 5).1.exit_code = none := by
  decide

/-- Claim C7 as amended: whenever an operation (callback handler, monitor
dispatch, cancellation, reconcile/recovery phase, or executor) assigns
exit_code, the run is in a terminal state afterwards and the value is 0
exactly when that state is COMPLETE; but the monitor cancellation phase,
its dispatch error path, and the reconcile check for runs without a
backend run id leave exit_code null on their terminal transitions. -/
theorem C7_exit_code_on_terminal_entry (op : MonitorOp) (run : WorkflowRun)
    (hpre : opPre op run)
    (hchanged : (applyOp op run).exit_code ≠ run.exit_code) :
    isTerminal (applyOp op run).state = true ∧
    ((applyOp op run).exit_code = some 0 ↔ (applyOp op run).state = .COMPLETE) := by
  cases op with
  | callback p now =>
    rcases applyOp_callback_cases p now run with heq | ⟨ns, hns, hv, heq⟩
    · rw [heq] at hchanged
      exact absurd rfl hchanged
    · obtain ⟨hst, -, -, hexit, -⟩ := applyUpdate_spec run ns p now
      rw [heq] at hchanged ⊢
      by_cases hT : isTerminal ns = true
      · rw [hst, hexit, if_pos hT]
        refine ⟨hT, ?_⟩
        by_cases hC : ns = WorkflowState.COMPLETE <;> simp [hC]
      · rw [hexit, if_neg hT] at hchanged
        exact absurd rfl hchanged
  | cancelPhase now =>
    rw [applyOp_cancel] at hchanged
    exact absurd rfl hchanged
  | dispatchInit =>
    rw [applyOp_init] at hchanged
    exact absurd rfl hchanged
  | dispatchError msg now =>
    rw [applyOp_error] at hchanged
    exact absurd rfl hchanged
  | localExec tRun tEnd fail =>
    obtain ⟨-, -, hT, hE⟩ := localExecute_spec (execute_run_init run) tRun tEnd fail
    rw [applyOp_local]
    exact ⟨hT, hE⟩
  | omicsExec env =>
    obtain ⟨-, hcase⟩ := omicsExecute_spec (execute_run_init run) env
    rw [applyOp_omics] at hchanged ⊢
    rcases hcase with ⟨-, -, h3⟩ | ⟨h1, -, h3⟩
    · rw [h3] at hchanged
      simp only [execute_run_init_exit] at hchanged
      exact absurd rfl hchanged
    · exact ⟨h1, h3⟩
  | checkExisting now =>
    rw [applyOp_checkExisting] at hchanged
    rcases check_existing_run_spec run now with heq | ⟨-, -, h3, -, -⟩
    · rw [heq] at hchanged
      exact absurd rfl hchanged
    · rw [h3] at hchanged
      exact absurd rfl hchanged
  | monitorExisting env =>
    rw [applyOp_monitorExisting] at hchanged ⊢
    rcases (monitor_existing_run_spec run env).2 with heq | ⟨h1, -, h3⟩
    · rw [heq] at hchanged
      exact absurd rfl hchanged
    · exact ⟨h1, h3⟩
  | monitorExistingError msg now =>
    rw [applyOp_monitorExistingError]
    constructor
    · simp [monitor_existing_error, isTerminal, TERMINAL_STATES]
    · simp [monitor_existing_error]

/-- Concrete witness for the amended C7: a COMPLETED callback on a
RUNNING run assigns exit code 0 on the COMPLETE transition. -/
theorem C7_exit_code_on_terminal_entry_witness :
    isTerminal (applyOp (MonitorOp.callback (mkPayload "COMPLETED" "e2") 4)
      (mkRun .RUNNING)).state = true ∧
    ((applyOp (MonitorOp.callback (mkPayload "COMPLETED" "e2") 4)
        (mkRun .RUNNING)).exit_code = some 0 ↔
      (applyOp (MonitorOp.callback (mkPayload "COMPLETED" "e2") 4)
        (mkRun .RUNNING)).state = .COMPLETE) :=
  C7_exit_code_on_terminal_entry (MonitorOp.callback (mkPayload "COMPLETED" "e2") 4)
    (mkRun .RUNNING) trivial (by decide)

/-! ## Claim C8 -/

/-- Claim C8 counterexample: the monitor commits the INITIALIZING update
without setting start_time, so a run is observable in INITIALIZING with a
null start_time. -/
theorem C8_counterexample :
    (execute_run_init (mkRun .QUEUED)).state = .INITIALIZING ∧
    (execute_run_init (mkRun .QUEUED)).start_time = none := by
  decide

/-- Claim C8 as amended: start_time is stamped by the executors when they
move the run into RUNNING (the Omics executor leaves it untouched when
workflow id extraction fails before RUNNING); every other operation of
the callback handler and the monitor, the reconcile and recovery phase
included, leaves start_time untouched.  Consequently a freshly created
run has a null start_time, every operation preserves the invariant that a
run in QUEUED or INITIALIZING has a null start_time, and so a run
observed in INITIALIZING has a null start_time. -/
theorem C8_start_time_by_executors :
    (∀ rid wtype wurl : String, StartTimeInv (newRun rid wtype wurl)) ∧
    (∀ (op : MonitorOp) (run : WorkflowRun), opPre op run → StartTimeInv run →
      (applyOp op run).start_time = startAfter op run ∧
      StartTimeInv (applyOp op run)) := by
  constructor
  · intro rid wtype wurl _
    rfl
  · intro op run hpre hinv
    cases op with
    | callback p now =>
      rcases applyOp_callback_cases p now run with heq | ⟨ns, hns, hv, heq⟩
      · rw [heq]
        exact ⟨rfl, hinv⟩
      · obtain ⟨hst, hstart, -, -, -⟩ := applyUpdate_spec run ns p now
        rw [heq]
        refine ⟨hstart, ?_⟩
        intro hQI
        exfalso
        rw [hst] at hQI
        rcases map_range p.status ns hns with rfl | rfl | rfl | rfl <;>
          rcases hQI with h | h <;> cases h
    | cancelPhase now =>
      refine ⟨rfl, ?_⟩
      intro hQI
      exfalso
      rcases hQI with h | h <;> simp [cancel_run] at h
    | dispatchInit =>
      refine ⟨rfl, ?_⟩
      intro _
      exact hinv (Or.inl hpre)
    | dispatchError msg now =>
      refine ⟨rfl, ?_⟩
      intro hQI
      exfalso
      rcases hQI with h | h <;> simp [execute_run_error] at h
    | localExec tRun tEnd fail =>
      obtain ⟨h, -, hT, -⟩ := localExecute_spec (execute_run_init run) tRun tEnd fail
      rw [applyOp_local]
      refine ⟨h, ?_⟩
      intro hQI
      exact (terminal_not_queued_init _ hT hQI).elim
    | omicsExec env =>
      obtain ⟨h, hcase⟩ := omicsExecute_spec (execute_run_init run) env
      rw [applyOp_omics]
      constructor
      · rw [h]
        simp [startAfter]
      · intro hQI
        exfalso
        rcases hcase with ⟨h1, -, -⟩ | ⟨h1, -, -⟩
        · rcases hQI with hq | hq <;> rw [h1] at hq <;> cases hq
        · exact terminal_not_queued_init _ h1 hQI
    | checkExisting now =>
      rcases check_existing_run_spec run now with heq | ⟨h1, -, -, h4, -⟩
      · rw [applyOp_checkExisting, heq]
        exact ⟨rfl, hinv⟩
      · rw [applyOp_checkExisting]
        refine ⟨h4, ?_⟩
        intro hQI
        exfalso
        rcases hQI with hq | hq <;> rw [h1] at hq <;> cases hq
    | monitorExisting env =>
      obtain ⟨h, hcase⟩ := monitor_existing_run_spec run env
      rw [applyOp_monitorExisting]
      refine ⟨h, ?_⟩
      rcases hcase with heq | ⟨h1, -, -⟩
      · rw [heq]
        exact hinv
      · intro hQI
        exact (terminal_not_queued_init _ h1 hQI).elim
    | monitorExistingError msg now =>
      refine ⟨rfl, ?_⟩
      intro hQI
      exfalso
      rcases hQI with h | h <;> simp [monitor_existing_error] at h

/-- Concrete witness for the amended C8: the local executor stamps
start_time with the RUNNING timestamp, and the invariant holds after. -/
theorem C8_start_time_by_executors_witness :
    (applyOp (MonitorOp.localExec 3 9 false) (mkRun .QUEUED)).start_time =
      startAfter (MonitorOp.localExec 3 9 false) (mkRun .QUEUED) ∧
    StartTimeInv (applyOp (MonitorOp.localExec 3 9 false) (mkRun .QUEUED)) :=
  C8_start_time_by_executors.2 (MonitorOp.localExec 3 9 false) (mkRun .QUEUED)
    rfl (by rw [StartTimeInv]; decide)

/-! ## Claim C9 -/

/-- Claim C9: with the active set below the ceiling, one dispatch phase
starts at most ceiling minus active new executions, so at most that many
runs leave QUEUED, and active_runs stays within the ceiling. -/
theorem C9_concurrency_ceiling (queued active : List String)
    (maxConcurrent : Nat) (h : active.length ≤ maxConcurrent) :
    (dispatch_phase queued active maxConcurrent).1.length ≤
      maxConcurrent - active.length ∧
    (dispatch_phase queued active maxConcurrent).2.length ≤ maxConcurrent := by
  obtain ⟨h1, h2⟩ :=
    dispatch_loop_spec (queued.take (maxConcurrent - active.length)) active
  have htake : (queued.take (maxConcurrent - active.length)).length ≤
      maxConcurrent - active.length := List.length_take_le _ _
  unfold dispatch_phase
  refine ⟨le_trans h1 htake, ?_⟩
  rw [h2]
  omega

/-- Concrete witness for C9: three queued runs, one active, ceiling two. -/
theorem C9_concurrency_ceiling_witness :
    (dispatch_phase ["a", "b", "c"] ["x"] 2).1.length ≤ 2 - (["x"] : List String).length ∧
    (dispatch_phase ["a", "b", "c"] ["x"] 2).2.length ≤ 2 :=
  C9_concurrency_ceiling ["a", "b", "c"] ["x"] 2 (by decide)

/-! ## Claim C10 -/

/-- Claim C10: PREEMPTED is not terminal and has no outgoing edge in the
validator, so a callback for a PREEMPTED run whose status maps to an
internal state is rejected as a bad request rather than absorbed. -/
theorem C10_preempted_rejected (run : WorkflowRun) (p : OmicsStateChangeCallback)
    (now : Nat) (hs : run.state = .PREEMPTED)
    (hmap : (OMICS_STATUS_MAP p.status).isSome = true) :
    (∀ t, is_valid_transition .PREEMPTED t = false) ∧
    isTerminal .PREEMPTED = false ∧
    handle_omics_state_change (some run) p now = .error 400 := by
  have hall : ∀ t, is_valid_transition .PREEMPTED t = false := by decide
  refine ⟨hall, by decide, ?_⟩
  obtain ⟨ns, hns⟩ := Option.isSome_iff_exists.mp hmap
  have hv : is_valid_transition run.state ns = false := by rw [hs]; exact hall ns
  have ht : isTerminal run.state = false := by rw [hs]; decide
  show handleRun run p now = _
  unfold handleRun
  rw [hns]
  simp [hv, ht]

/-- Concrete witness for C10: a RUNNING status callback on a PREEMPTED
run yields a 400 rejection. -/
theorem C10_preempted_rejected_witness :
    (∀ t, is_valid_transition .PREEMPTED t = false) ∧
    isTerminal .PREEMPTED = false ∧
    handle_omics_state_change (some (mkRun .PREEMPTED)) (mkPayload "RUNNING" "e3") 2 =
      .error 400 :=
  C10_preempted_rejected (mkRun .PREEMPTED) (mkPayload "RUNNING" "e3") 2
    rfl (by decide)

end WesService
